import Mathlib

/-!
Shallow embedding of the PayPal-webhook email relay (repository
PratikDilipGade/PratikGade).  The canonical handler variant is the
defensive, template-caching one in `src/pg.js` (function
`paypalWebhookHandler` together with `getEmailTemplate`), which the
specification adopts as authoritative.

The embedding models:
 - template substitution, i.e. the two chained JavaScript calls
   `.replace(/{{itemName}}/g, itemName).replace(/{{buyerEmail}}/g, buyerEmail)`,
   over `List Char`, including the `$`-sequence semantics of a string
   replacement argument of `String.prototype.replace`;
 - the module-level template cache `cachedEmailTemplate` and
   `getEmailTemplate`, with the JavaScript truthiness check
   `if (cachedEmailTemplate)`;
 - the request-handling control flow of `paypalWebhookHandler`,
   with the two network effects (template fetch, Resend dispatch)
   supplied as oracles and counted in the result.
-/

/-- The literal marker `{{itemName}}` as a character list (braces escaped). -/
def itemMarker : List Char := ("\x7b\x7bitemName\x7d\x7d").data

/-- The literal marker `{{buyerEmail}}` as a character list (braces escaped). -/
def buyerMarker : List Char := ("\x7b\x7bbuyerEmail\x7d\x7d").data

/-- Substitution of `$`-sequences in a string replacement argument of
`String.prototype.replace` (ECMA-262 GetSubstitution) for a regular
expression with no capture groups: `$$` gives `$`, `$&` gives the matched
text `m`, a dollar followed by a backtick gives the part of the original
string before the match (`pre`), `$` followed by an apostrophe gives the
part after the match (`post`); any other `$`-sequence is kept verbatim. -/
def substDollar (m pre post : List Char) : List Char → List Char
  | [] => []
  | c :: r =>
    if c = '$' then
      match r with
      | [] => ['$']
      | c2 :: r2 =>
        if c2 = '$' then '$' :: substDollar m pre post r2
        else if c2 = '&' then m ++ substDollar m pre post r2
        else if c2 = Char.ofNat 96 then pre ++ substDollar m pre post r2
        else if c2 = Char.ofNat 39 then post ++ substDollar m pre post r2
        else '$' :: substDollar m pre post (c2 :: r2)
    else c :: substDollar m pre post r

/-- Whether `pat` is an initial segment of `l` (Bool-valued, executable). -/
def startsWithSeq : List Char → List Char → Bool
  | [], _ => true
  | _ :: _, [] => false
  | p :: ps, c :: cs => p = c && startsWithSeq ps cs

/-- Whether `pat` occurs as a contiguous subsequence of `l`. -/
def containsSeq (pat : List Char) : List Char → Bool
  | [] => startsWithSeq pat []
  | c :: cs => startsWithSeq pat (c :: cs) || containsSeq pat cs

/-- Worker for global replacement, scanning left to right.  `skip` is the
number of characters of a previous match still to be consumed without
rescanning (a replacement is never rescanned, and matches never overlap);
`pre` accumulates the part of the original string already consumed, which
the `$`-sequence substitution needs.  A match at the current position
emits `substDollar pat pre post rep` and skips the matched characters. -/
def replaceAllGo (pat rep : List Char) : Nat → List Char → List Char → List Char
  | _, _, [] => []
  | Nat.succ s, pre, c :: cs => replaceAllGo pat rep s (pre ++ [c]) cs
  | 0, pre, c :: cs =>
    if !pat.isEmpty && startsWithSeq pat (c :: cs) then
      substDollar pat pre ((c :: cs).drop pat.length) rep
        ++ replaceAllGo pat rep (pat.length - 1) (pre ++ [c]) cs
    else
      c :: replaceAllGo pat rep 0 (pre ++ [c]) cs

/-- Global replacement of the literal pattern `pat` by the replacement
string `rep` in `l`: the embedding of `str.replace(/pat/g, rep)` for a
literal pattern with no capture groups. -/
def replaceAll (pat rep l : List Char) : List Char :=
  replaceAllGo pat rep 0 [] l

/-- Template personalization, `src/pg.js`: the template with every
occurrence of `{{itemName}}` replaced by `itemName`, then every
occurrence of `{{buyerEmail}}` replaced by `buyerEmail`. -/
def personalize (tmpl itemName buyerEmail : String) : String :=
  String.mk (replaceAll buyerMarker buyerEmail.data
    (replaceAll itemMarker itemName.data tmpl.data))

/-- Reference scanner for global replacement with the replacement string
inserted verbatim (no `$`-sequence processing): the behavior of
`str.replace(/pat/g, rep)` when `rep` contains no dollar sign.  Same
scanning discipline as `replaceAllGo` (left to right, non-overlapping,
replacements never rescanned), without the `pre` accumulator that only
the `$`-sequences need. -/
def replaceVerbatimGo (pat rep : List Char) : Nat → List Char → List Char
  | _, [] => []
  | Nat.succ s, _ :: cs => replaceVerbatimGo pat rep s cs
  | 0, c :: cs =>
    if !pat.isEmpty && startsWithSeq pat (c :: cs) then
      rep ++ replaceVerbatimGo pat rep (pat.length - 1) cs
    else
      c :: replaceVerbatimGo pat rep 0 cs

/-- Global replacement with verbatim insertion of the replacement. -/
def replaceAllVerbatim (pat rep l : List Char) : List Char :=
  replaceVerbatimGo pat rep 0 l

/-- Whether no match of `pat` starts strictly inside `u` when the
scanner's remaining input continues with `rest` after `u`: true iff for
every non-empty suffix `w` of `u`, `pat` is not an initial segment of
`w ++ rest`.  For a string decomposed as `u ++ pat ++ v`, the condition
with `rest = pat ++ v` says exactly that the displayed occurrence of
`pat` is the leftmost one the scanner meets. -/
def noPrefixMatch (pat rest : List Char) : List Char → Bool
  | [] => true
  | c :: u => !startsWithSeq pat ((c :: u) ++ rest) && noPrefixMatch pat rest u

/-! ## Data model of the incoming PayPal event -/

/-- A purchased item, element of `items` in a purchase unit. -/
structure Item where
  name : Option String
deriving DecidableEq

/-- A purchase unit, element of `purchase_units` in the event resource. -/
structure PurchaseUnit where
  items : Option (List Item)
deriving DecidableEq

/-- The payer object of the event resource. -/
structure Payer where
  email_address : Option String
deriving DecidableEq

/-- The `resource` object of a PayPal webhook event. -/
structure Resource where
  payer : Option Payer
  purchase_units : Option (List PurchaseUnit)
deriving DecidableEq

/-- A decoded webhook payload: the fields of the body that
`paypalWebhookHandler` reads.  Absent fields are `none` (JavaScript
`undefined`). -/
structure Payload where
  event_type : Option String
  resource : Option Resource
deriving DecidableEq

/-- JavaScript truthiness of a possibly-absent string: `undefined`,
`null` and the empty string are falsy. -/
def truthyStr : Option String → Bool
  | none => false
  | some s => !(s = "")

/-- The optional chain `resource?.payer?.email_address` of `src/pg.js`. -/
def buyerEmailOf (p : Payload) : Option String :=
  ((p.resource.bind (fun r => r.payer))).bind (fun py => py.email_address)

/-- The optional chain `resource?.purchase_units?.[0]?.items?.[0]?.name`. -/
def itemNamePath (p : Payload) : Option String :=
  (((((p.resource.bind (fun r => r.purchase_units))).bind List.head?).bind
    (fun u => u.items)).bind List.head?).bind (fun it => it.name)

/-- The extracted item name with the JavaScript `|| "Digital Product"`
fallback: a missing path segment (or an empty name, which is falsy)
yields the literal default. -/
def itemNameOf (p : Payload) : String :=
  match itemNamePath p with
  | some n => if n = "" then "Digital Product" else n
  | none => "Digital Product"

/-! ## Template cache and `getEmailTemplate` -/

/-- Outcome the network would give to the template fetch: a transport
failure (the promise rejects) or a response with an `ok` flag and a
body text. -/
inductive FetchOutcome
  | transportFail
  | response (ok : Bool) (text : String)
deriving DecidableEq

/-- Result of one call to `getEmailTemplate`: the returned template or a
thrown error, the new value of the module-level `cachedEmailTemplate`,
and the number of network fetches performed during the call. -/
structure TemplateResult where
  result : Except Unit String
  cache : Option String
  fetches : Nat

/-- Truthiness of the cache variable: the check `if (cachedEmailTemplate)`
in `getEmailTemplate`, `src/pg.js` — an unset cache and a cached empty
string are both falsy. -/
def templateTruthy : Option String → Bool
  | none => false
  | some t => !(t = "")

/-- Embedding of `getEmailTemplate` (`src/pg.js`): return the cached
template when the cache variable is truthy; otherwise fetch, throw on a
transport failure or a non-ok response (leaving the cache untouched),
and on success store the body text in the cache and return it. -/
def getEmailTemplate (fetch : FetchOutcome) (cache : Option String) :
    TemplateResult :=
  if templateTruthy cache then
    { result := Except.ok (cache.getD ""), cache := cache, fetches := 0 }
  else
    match fetch with
    | FetchOutcome.transportFail =>
      { result := Except.error (), cache := cache, fetches := 1 }
    | FetchOutcome.response ok text =>
      if ok then
        { result := Except.ok text, cache := some text, fetches := 1 }
      else
        { result := Except.error (), cache := cache, fetches := 1 }

/-! ## Request, response and handler -/

/-- The request body: either a raw string still to be decoded, or an
already parsed payload object. -/
inductive ReqBody
  | str (s : String)
  | obj (p : Payload)

/-- The incoming request, as the hosting adapters build it: a method and
a body. -/
structure Req where
  method : String
  body : ReqBody

/-- A response body: one of the JSON shapes the handler produces. -/
inductive RespBody
  | err (e : String)
  | msg (m : String)
  | sent (message : String) (resendId : String)
deriving DecidableEq

/-- A response: HTTP status code and body. -/
structure Resp where
  status : Nat
  body : RespBody
deriving DecidableEq

/-- The payload of the dispatch call to the email provider, as built in
step 7 of the handler; `toAddr` is the `to` field of the JSON body sent
to the provider (`to` is a reserved word here). -/
structure EmailSendReq where
  toAddr : String
  subject : String
  html : String
deriving DecidableEq

/-- Outcome the network would give to the Resend dispatch call: a
transport failure, a non-ok response carrying a status and raw body
text, an ok response whose JSON decoding fails, or an ok response with
an `id` field. -/
inductive ResendOutcome
  | transportFail
  | httpError (status : Nat) (text : String)
  | okBadJson
  | success (id : String)
deriving DecidableEq

/-- The per-invocation environment: the JSON decoder for string bodies,
the outcomes the two network calls would have, and the provider
credential from the process environment. -/
structure Env where
  parseJson : String → Option Payload
  templateFetch : FetchOutcome
  apiKey : Option String
  resendOutcome : ResendOutcome

/-- Result of one handler invocation: the response, the cache after the
invocation, the number of template fetches and of dispatch calls made,
and the dispatched email payload when a dispatch was attempted. -/
structure HandlerResult where
  resp : Resp
  cache : Option String
  templateFetches : Nat
  dispatchCalls : Nat
  dispatched : Option EmailSendReq

/-- Steps 3–8 of `paypalWebhookHandler` (`src/pg.js`), from the decoded
body onward: event-type filter, field extraction, buyer-email check,
template stage, personalization, credential check, dispatch. -/
def handleOrder (env : Env) (cache : Option String) (p : Payload) :
    HandlerResult :=
  if p.event_type ≠ some "PAYMENT.CAPTURE.COMPLETED" then
    { resp := { status := 200, body := RespBody.msg "Ignored non-payment event" },
      cache := cache, templateFetches := 0, dispatchCalls := 0, dispatched := none }
  else
    let buyerOpt := buyerEmailOf p
    let itemName := itemNameOf p
    if !truthyStr buyerOpt then
      { resp := { status := 400, body := RespBody.err "Buyer email not found in event" },
        cache := cache, templateFetches := 0, dispatchCalls := 0, dispatched := none }
    else
      let buyerEmail := buyerOpt.getD ""
      let tr := getEmailTemplate env.templateFetch cache
      match tr.result with
      | Except.error _ =>
        { resp := { status := 500, body := RespBody.err "Failed to fetch email template" },
          cache := tr.cache, templateFetches := tr.fetches, dispatchCalls := 0,
          dispatched := none }
      | Except.ok tmpl =>
        let personalized := personalize tmpl itemName buyerEmail
        if !truthyStr env.apiKey then
          { resp := { status := 500, body := RespBody.err "Resend API key not configured" },
            cache := tr.cache, templateFetches := tr.fetches, dispatchCalls := 0,
            dispatched := none }
        else
          let sendReq : EmailSendReq :=
            { toAddr := buyerEmail, subject := "Your " ++ itemName ++ " is ready!",
              html := personalized }
          match env.resendOutcome with
          | ResendOutcome.transportFail =>
            { resp := { status := 500, body := RespBody.err "Failed to send email" },
              cache := tr.cache, templateFetches := tr.fetches, dispatchCalls := 1,
              dispatched := some sendReq }
          | ResendOutcome.httpError _ _ =>
            { resp := { status := 500, body := RespBody.err "Failed to send email" },
              cache := tr.cache, templateFetches := tr.fetches, dispatchCalls := 1,
              dispatched := some sendReq }
          | ResendOutcome.okBadJson =>
            { resp := { status := 500, body := RespBody.err "Failed to send email" },
              cache := tr.cache, templateFetches := tr.fetches, dispatchCalls := 1,
              dispatched := some sendReq }
          | ResendOutcome.success id =>
            { resp := { status := 200,
                        body := RespBody.sent ("Email sent to " ++ buyerEmail) id },
              cache := tr.cache, templateFetches := tr.fetches, dispatchCalls := 1,
              dispatched := some sendReq }

/-- Embedding of `paypalWebhookHandler` (`src/pg.js`, canonical
defensive variant): method check, safe body parse (a string body that
fails to decode yields 400 "Invalid JSON body"), then the event
pipeline. -/
def paypalWebhookHandler (env : Env) (cache : Option String) (req : Req) :
    HandlerResult :=
  if req.method ≠ "POST" then
    { resp := { status := 405, body := RespBody.err "Method Not Allowed" },
      cache := cache, templateFetches := 0, dispatchCalls := 0, dispatched := none }
  else
    match req.body with
    | ReqBody.str s =>
      match env.parseJson s with
      | none =>
        { resp := { status := 400, body := RespBody.err "Invalid JSON body" },
          cache := cache, templateFetches := 0, dispatchCalls := 0, dispatched := none }
      | some p => handleOrder env cache p
    | ReqBody.obj p => handleOrder env cache p

/-- The decoded payload of a request, if any: a parsed object body, or a
string body on which the decoder succeeds. -/
def decodedPayload (env : Env) (req : Req) : Option Payload :=
  match req.body with
  | ReqBody.str s => env.parseJson s
  | ReqBody.obj p => some p

/-- Whether a template-fetch outcome is a failure: a transport failure or
a response with a non-success status (`!response.ok`). -/
def fetchFailed : FetchOutcome → Bool
  | FetchOutcome.transportFail => true
  | FetchOutcome.response ok _ => !ok

/-! ## Concrete fixtures used by witnesses -/

/-- The end-to-end payload of the specification: a payment-completed
event with buyer `buyer@x.com` and one item named `E-book`. -/
def samplePayload : Payload :=
  { event_type := some "PAYMENT.CAPTURE.COMPLETED",
    resource := some
      { payer := some { email_address := some "buyer@x.com" },
        purchase_units := some [{ items := some [{ name := some "E-book" }] }] } }

/-- The same payload with `purchase_units` absent (missing item-name path). -/
def noItemPayload : Payload :=
  { event_type := some "PAYMENT.CAPTURE.COMPLETED",
    resource := some
      { payer := some { email_address := some "buyer@x.com" },
        purchase_units := none } }

/-- A payment-completed payload with no payer object (buyer email absent). -/
def noPayerPayload : Payload :=
  { event_type := some "PAYMENT.CAPTURE.COMPLETED",
    resource := some
      { payer := none,
        purchase_units := some [{ items := some [{ name := some "E-book" }] }] } }

/-- A payload whose event type is not the payment-completed tag. -/
def otherEventPayload : Payload :=
  { event_type := some "CHECKOUT.ORDER.APPROVED", resource := none }

/-- An environment in which both network calls succeed. -/
def envOk : Env :=
  { parseJson := fun _ => none,
    templateFetch := FetchOutcome.response true
      ("Item: \x7b\x7bitemName\x7d\x7d / To: \x7b\x7bbuyerEmail\x7d\x7d"),
    apiKey := some "key",
    resendOutcome := ResendOutcome.success "em_123" }

/-- An environment in which the template fetch gets a non-success status. -/
def envFetchFail : Env :=
  { parseJson := fun _ => none,
    templateFetch := FetchOutcome.response false "404: Not Found",
    apiKey := some "key",
    resendOutcome := ResendOutcome.success "em_123" }

/-- An environment in which the email provider rejects the dispatch. -/
def envResendFail : Env :=
  { parseJson := fun _ => none,
    templateFetch := FetchOutcome.response true
      ("T \x7b\x7bitemName\x7d\x7d \x7b\x7bbuyerEmail\x7d\x7d"),
    apiKey := some "key",
    resendOutcome := ResendOutcome.httpError 422 "missing domain" }

/-! ## Lemmas about the substitution model -/

/-- A string is the `String.mk` of its character list. -/
theorem stringMkData (s : String) : String.mk s.data = s := rfl

/-- A list is an initial segment of itself followed by anything. -/
theorem startsWithSeq_append (pat rest : List Char) :
    startsWithSeq pat (pat ++ rest) = true := by
  induction pat with
  | nil => rfl
  | cons p ps ih => simp [startsWithSeq, ih]

/-- A replacement string without a dollar sign is inserted verbatim. -/
theorem substDollar_eq_of_noDollar (m pre post rep : List Char)
    (h : '$' ∉ rep) : substDollar m pre post rep = rep := by
  induction rep with
  | nil => rfl
  | cons c r ih =>
    have hc : ¬ c = '$' := by
      intro e
      exact h (by rw [e]; exact List.mem_cons_self '$' r)
    have hr : '$' ∉ r := fun hm => h (List.mem_cons_of_mem c hm)
    rw [substDollar.eq_def]
    simp only [if_neg hc]
    rw [ih hr]

/-- The scanner in skip mode consumes exactly the skipped characters. -/
theorem replaceAllGo_skip (pat rep : List Char) (xs : List Char) :
    ∀ pre rest, replaceAllGo pat rep xs.length pre (xs ++ rest)
      = replaceAllGo pat rep 0 (pre ++ xs) rest := by
  induction xs with
  | nil => intro pre rest; simp
  | cons x xt ih =>
    intro pre rest
    rw [List.cons_append, List.length_cons, replaceAllGo, ih]
    simp

/-- Scanning a string that starts with the (nonempty) pattern emits the
substituted replacement and resumes after the matched characters. -/
theorem replaceAllGo_match (pat rep : List Char) (hne : pat ≠ [])
    (pre rest : List Char) :
    replaceAllGo pat rep 0 pre (pat ++ rest)
      = substDollar pat pre rest rep
          ++ replaceAllGo pat rep 0 (pre ++ pat) rest := by
  cases pat with
  | nil => exact absurd rfl hne
  | cons pd pt =>
    rw [List.cons_append, replaceAllGo]
    have hsw : startsWithSeq (pd :: pt) (pd :: (pt ++ rest)) = true := by
      have := startsWithSeq_append (pd :: pt) rest
      rwa [List.cons_append] at this
    rw [hsw]
    simp only [List.isEmpty_cons, Bool.not_false, Bool.true_and, if_true]
    have hdrop : (pd :: (pt ++ rest)).drop (pd :: pt).length = rest := by
      have : (pd :: pt) ++ rest = pd :: (pt ++ rest) := by simp
      rw [← this, List.drop_left]
    rw [hdrop]
    have hskip : replaceAllGo (pd :: pt) rep ((pd :: pt).length - 1)
        (pre ++ [pd]) (pt ++ rest)
        = replaceAllGo (pd :: pt) rep 0 (pre ++ pd :: pt) rest := by
      have := replaceAllGo_skip (pd :: pt) rep pt (pre ++ [pd]) rest
      simpa using this
    rw [hskip]

/-- Scanning a string whose head does not start a match keeps the head. -/
theorem replaceAllGo_nomatch (pat rep : List Char) (c : Char) (cs pre : List Char)
    (h : startsWithSeq pat (c :: cs) = false) :
    replaceAllGo pat rep 0 pre (c :: cs)
      = c :: replaceAllGo pat rep 0 (pre ++ [c]) cs := by
  rw [replaceAllGo, h]
  simp

/-- Scanning an empty string yields the empty string in any mode. -/
theorem replaceAllGo_nil (pat rep : List Char) (s : Nat) (pre : List Char) :
    replaceAllGo pat rep s pre [] = [] := by
  cases s <;> rfl

/-- Replacement leaves a string with no occurrence of the pattern intact. -/
theorem replaceAllGo_id_of_not_contains (pat rep l : List Char)
    (h : containsSeq pat l = false) :
    ∀ pre, replaceAllGo pat rep 0 pre l = l := by
  induction l with
  | nil => intro pre; rfl
  | cons c cs ih =>
    intro pre
    rw [containsSeq, Bool.or_eq_false_iff] at h
    rw [replaceAllGo_nomatch pat rep c cs pre h.1, ih h.2]

/-- `replaceAll` is the identity on strings without the pattern. -/
theorem replaceAll_id_of_not_contains (pat rep l : List Char)
    (h : containsSeq pat l = false) : replaceAll pat rep l = l :=
  replaceAllGo_id_of_not_contains pat rep l h []

/-- Personalization fixes any string that contains neither marker. -/
theorem personalize_fixed (r i b : String)
    (h1 : containsSeq itemMarker r.data = false)
    (h2 : containsSeq buyerMarker r.data = false) :
    personalize r i b = r := by
  unfold personalize
  rw [replaceAll_id_of_not_contains itemMarker i.data _ h1]
  rw [replaceAll_id_of_not_contains buyerMarker b.data _ h2]

/-- The character list of `String.mk` is its argument. -/
theorem dataMk (l : List Char) : (String.mk l).data = l := rfl

/-- For a dollar-free replacement the full scanner and the verbatim
scanner agree, in every state. -/
theorem replaceAllGo_eq_verbatim (pat rep : List Char) (h : '$' ∉ rep) :
    ∀ (l : List Char) (s : Nat) (pre : List Char),
      replaceAllGo pat rep s pre l = replaceVerbatimGo pat rep s l := by
  intro l
  induction l with
  | nil =>
    intro s pre
    cases s <;> rfl
  | cons c cs ih =>
    intro s pre
    cases s with
    | succ t =>
      rw [replaceAllGo, replaceVerbatimGo]
      exact ih t (pre ++ [c])
    | zero =>
      rw [replaceAllGo, replaceVerbatimGo]
      by_cases hm : (!pat.isEmpty && startsWithSeq pat (c :: cs)) = true
      · rw [if_pos hm, if_pos hm, substDollar_eq_of_noDollar _ _ _ _ h, ih]
      · rw [if_neg hm, if_neg hm, ih]

/-- For a dollar-free replacement, `replaceAll` inserts it verbatim. -/
theorem replaceAll_eq_verbatim (pat rep l : List Char) (h : '$' ∉ rep) :
    replaceAll pat rep l = replaceAllVerbatim pat rep l :=
  replaceAllGo_eq_verbatim pat rep h l 0 []

/-- The verbatim scanner in skip mode consumes the skipped characters. -/
theorem replaceVerbatimGo_skip (pat rep xs : List Char) :
    ∀ rest, replaceVerbatimGo pat rep xs.length (xs ++ rest)
      = replaceVerbatimGo pat rep 0 rest := by
  induction xs with
  | nil => intro rest; rfl
  | cons x xt ih =>
    intro rest
    rw [List.cons_append, List.length_cons, replaceVerbatimGo]
    exact ih rest

/-- The verbatim scanner on input starting with the (nonempty) pattern
emits the replacement and resumes after the matched characters. -/
theorem replaceVerbatimGo_match (pat rep : List Char) (hne : pat ≠ [])
    (rest : List Char) :
    replaceVerbatimGo pat rep 0 (pat ++ rest)
      = rep ++ replaceVerbatimGo pat rep 0 rest := by
  cases pat with
  | nil => exact absurd rfl hne
  | cons pd pt =>
    rw [List.cons_append, replaceVerbatimGo]
    have hsw : startsWithSeq (pd :: pt) (pd :: (pt ++ rest)) = true := by
      have := startsWithSeq_append (pd :: pt) rest
      rwa [List.cons_append] at this
    rw [hsw]
    simp only [List.isEmpty_cons, Bool.not_false, Bool.true_and, if_true]
    have hskip : replaceVerbatimGo (pd :: pt) rep ((pd :: pt).length - 1) (pt ++ rest)
        = replaceVerbatimGo (pd :: pt) rep 0 rest := by
      have := replaceVerbatimGo_skip (pd :: pt) rep pt rest
      simpa using this
    rw [hskip]

/-- The verbatim scanner keeps a head that starts no match. -/
theorem replaceVerbatimGo_nomatch (pat rep : List Char) (c : Char) (cs : List Char)
    (h : startsWithSeq pat (c :: cs) = false) :
    replaceVerbatimGo pat rep 0 (c :: cs) = c :: replaceVerbatimGo pat rep 0 cs := by
  rw [replaceVerbatimGo, h]
  simp

/-- Scanning through the leftmost occurrence of the pattern: if no match
starts inside `u`, the scanner copies `u`, replaces the displayed
occurrence of `pat`, and continues on `v`. -/
theorem replaceVerbatimGo_through (pat rep : List Char) (hne : pat ≠ []) :
    ∀ (u v : List Char), noPrefixMatch pat (pat ++ v) u = true →
      replaceVerbatimGo pat rep 0 (u ++ (pat ++ v))
        = u ++ (rep ++ replaceVerbatimGo pat rep 0 v) := by
  intro u
  induction u with
  | nil =>
    intro v _
    simp only [List.nil_append]
    exact replaceVerbatimGo_match pat rep hne v
  | cons c u ih =>
    intro v h
    rw [noPrefixMatch, Bool.and_eq_true] at h
    have h1 : startsWithSeq pat ((c :: u) ++ (pat ++ v)) = false := by
      have := h.1
      rwa [Bool.not_eq_true'] at this
    have h1' : startsWithSeq pat (c :: (u ++ (pat ++ v))) = false := by
      simpa using h1
    rw [List.cons_append, replaceVerbatimGo_nomatch pat rep c _ h1', ih v h.2]
    simp

/-- `replaceAll` with verbatim insertion, through the leftmost occurrence. -/
theorem replaceAllVerbatim_through (pat rep : List Char) (hne : pat ≠ [])
    (u v : List Char) (h : noPrefixMatch pat (pat ++ v) u = true) :
    replaceAllVerbatim pat rep (u ++ (pat ++ v))
      = u ++ (rep ++ replaceAllVerbatim pat rep v) :=
  replaceVerbatimGo_through pat rep hne u v h

/-! ## Claim theorems -/

/-- Claim C1 (corrected): the first successful template fetch populates
the cache with the fetched text in one network fetch, and any later
invocation of `getEmailTemplate` returns the cached value without a
fetch PROVIDED the cached text is non-empty — the truthiness guard
`if (cachedEmailTemplate)` treats a cached empty string as absent, so
the unconditional claim fails for an empty template. -/
theorem C1_template_cache_amended (f1 f2 : FetchOutcome) (t : String)
    (hok : (getEmailTemplate f1 none).result = Except.ok t) :
    (getEmailTemplate f1 none).cache = some t ∧
    (getEmailTemplate f1 none).fetches = 1 ∧
    (t ≠ "" →
      getEmailTemplate f2 (some t) =
        { result := Except.ok t, cache := some t, fetches := 0 }) := by
  cases f1 with
  | transportFail => simp [getEmailTemplate, templateTruthy] at hok
  | response ok text =>
    cases ok with
    | false => simp [getEmailTemplate, templateTruthy] at hok
    | true =>
      simp [getEmailTemplate, templateTruthy] at hok
      subst hok
      refine ⟨rfl, rfl, fun ht => ?_⟩
      simp [getEmailTemplate, templateTruthy, ht, Option.getD]

/-- Claim C1, counterexample to the claim as stated: with template text
`""`, the first invocation fetches successfully and populates the cache,
yet the second invocation performs another network fetch (1, not 0), so
two sequential successful invocations make two fetches, not one. -/
theorem C1_empty_template_counterexample :
    (getEmailTemplate (FetchOutcome.response true "") none).result = Except.ok "" ∧
    (getEmailTemplate (FetchOutcome.response true "") none).cache = some "" ∧
    (getEmailTemplate (FetchOutcome.response true "")
      ((getEmailTemplate (FetchOutcome.response true "") none).cache)).result
        = Except.ok "" ∧
    (getEmailTemplate (FetchOutcome.response true "")
      ((getEmailTemplate (FetchOutcome.response true "") none).cache)).fetches = 1 :=
  ⟨rfl, rfl, rfl, rfl⟩

/-- Claim C1, witness: the amended theorem applied to a successful fetch
of the non-empty template `"T"`. -/
theorem C1_template_cache_witness :
    (getEmailTemplate (FetchOutcome.response true "T") none).result = Except.ok "T" ∧
    getEmailTemplate (FetchOutcome.response true "T") (some "T") =
      { result := Except.ok "T", cache := some "T", fetches := 0 } := by
  have h := C1_template_cache_amended (FetchOutcome.response true "T")
    (FetchOutcome.response true "T") "T" rfl
  exact ⟨rfl, h.2.2 (by decide)⟩

/-- Claim C2: with an unpopulated cache, a payment-completed request
whose template fetch fails (transport failure or non-success status)
yields `500 (error "Failed to fetch email template")`, makes no dispatch
call, leaves the cache unpopulated, and any next invocation of the
template provider attempts the fetch again. -/
theorem C2_template_unavailable (env : Env) (req : Req) (p : Payload)
    (hm : req.method = "POST") (hd : decodedPayload env req = some p)
    (he : p.event_type = some "PAYMENT.CAPTURE.COMPLETED")
    (hb : truthyStr (buyerEmailOf p) = true)
    (hf : fetchFailed env.templateFetch = true) :
    paypalWebhookHandler env none req =
      { resp := { status := 500, body := RespBody.err "Failed to fetch email template" },
        cache := none, templateFetches := 1, dispatchCalls := 0, dispatched := none } ∧
    (∀ f' : FetchOutcome,
      (getEmailTemplate f' (paypalWebhookHandler env none req).cache).fetches = 1) := by
  have hgt : getEmailTemplate env.templateFetch none =
      { result := Except.error (), cache := none, fetches := 1 } := by
    cases hef : env.templateFetch with
    | transportFail => simp [getEmailTemplate, templateTruthy]
    | response ok text =>
      rw [hef] at hf
      simp only [fetchFailed, Bool.not_eq_true'] at hf
      subst hf
      simp [getEmailTemplate, templateTruthy]
  have hmain : paypalWebhookHandler env none req =
      { resp := { status := 500, body := RespBody.err "Failed to fetch email template" },
        cache := none, templateFetches := 1, dispatchCalls := 0, dispatched := none } := by
    cases req with
    | mk m b =>
      cases b with
      | str s =>
        simp only [decodedPayload] at hd
        simp [paypalWebhookHandler, hm, hd, handleOrder, he, hb, hgt]
        exact hm
      | obj q =>
        simp only [decodedPayload, Option.some.injEq] at hd
        subst hd
        simp [paypalWebhookHandler, hm, handleOrder, he, hb, hgt]
        exact hm
  refine ⟨hmain, fun f' => ?_⟩
  rw [hmain]
  cases f' with
  | transportFail => simp [getEmailTemplate, templateTruthy]
  | response ok text => cases ok <;> simp [getEmailTemplate, templateTruthy]

/-- Claim C2, witness: the theorem applied to the sample payment payload
in an environment whose template fetch returns a non-success status. -/
theorem C2_template_unavailable_witness :
    decodedPayload envFetchFail { method := "POST", body := ReqBody.obj samplePayload }
      = some samplePayload ∧
    fetchFailed envFetchFail.templateFetch = true ∧
    paypalWebhookHandler envFetchFail none
        { method := "POST", body := ReqBody.obj samplePayload } =
      { resp := { status := 500, body := RespBody.err "Failed to fetch email template" },
        cache := none, templateFetches := 1, dispatchCalls := 0, dispatched := none } ∧
    (getEmailTemplate envOk.templateFetch
      (paypalWebhookHandler envFetchFail none
        { method := "POST", body := ReqBody.obj samplePayload }).cache).fetches = 1 := by
  have h := C2_template_unavailable envFetchFail
    { method := "POST", body := ReqBody.obj samplePayload }
    samplePayload rfl rfl rfl (by decide) rfl
  exact ⟨rfl, rfl, h.1, h.2 envOk.templateFetch⟩

/-- Claim C3 (corrected): substitution replaces every occurrence of both
markers (shown on the specification's multi-occurrence template), and it
is idempotent PROVIDED the once-rendered output contains neither marker;
the unconditional claim fails when an order value itself contains a
marker, as the counterexample shows. -/
theorem C3_substitution_amended :
    (personalize
        ("Hi \x7b\x7bbuyerEmail\x7d\x7d, your \x7b\x7bitemName\x7d\x7d is ready, \x7b\x7bbuyerEmail\x7d\x7d!")
        ("Widget") ("a@b.com")
      = ("Hi a@b.com, your Widget is ready, a@b.com!")) ∧
    (∀ t i b : String,
      containsSeq itemMarker (personalize t i b).data = false →
      containsSeq buyerMarker (personalize t i b).data = false →
      personalize (personalize t i b) i b = personalize t i b) := by
  refine ⟨by decide, fun t i b h1 h2 => ?_⟩
  exact personalize_fixed (personalize t i b) i b h1 h2

/-- Claim C3, counterexample to idempotence as stated: with template
`"{{buyerEmail}}"`, item name `"W"` and buyer email `"{{itemName}}"`,
one application renders `"{{itemName}}"` but a second application turns
that into `"W"`. -/
theorem C3_idempotence_counterexample :
    personalize
        (personalize ("\x7b\x7bbuyerEmail\x7d\x7d") ("W") ("\x7b\x7bitemName\x7d\x7d"))
        ("W") ("\x7b\x7bitemName\x7d\x7d")
      ≠ personalize ("\x7b\x7bbuyerEmail\x7d\x7d") ("W") ("\x7b\x7bitemName\x7d\x7d") := by
  decide

/-- Claim C3, witness: idempotence from the amended theorem at the
specification's example template and order values. -/
theorem C3_substitution_witness :
    containsSeq itemMarker
      (personalize
        ("Hi \x7b\x7bbuyerEmail\x7d\x7d, your \x7b\x7bitemName\x7d\x7d is ready, \x7b\x7bbuyerEmail\x7d\x7d!")
        ("Widget") ("a@b.com")).data = false ∧
    personalize
        (personalize
          ("Hi \x7b\x7bbuyerEmail\x7d\x7d, your \x7b\x7bitemName\x7d\x7d is ready, \x7b\x7bbuyerEmail\x7d\x7d!")
          ("Widget") ("a@b.com"))
        ("Widget") ("a@b.com")
      = personalize
          ("Hi \x7b\x7bbuyerEmail\x7d\x7d, your \x7b\x7bitemName\x7d\x7d is ready, \x7b\x7bbuyerEmail\x7d\x7d!")
          ("Widget") ("a@b.com") := by
  refine ⟨by decide, ?_⟩
  exact C3_substitution_amended.2
    ("Hi \x7b\x7bbuyerEmail\x7d\x7d, your \x7b\x7bitemName\x7d\x7d is ready, \x7b\x7bbuyerEmail\x7d\x7d!")
    ("Widget") ("a@b.com") (by decide) (by decide)

/-- Claim C4: a request with any method other than POST is answered
`405 (error "Method Not Allowed")` with the cache unchanged, no template
fetch and no dispatch call. -/
theorem C4_method_not_allowed (env : Env) (cache : Option String) (req : Req)
    (h : req.method ≠ "POST") :
    paypalWebhookHandler env cache req =
      { resp := { status := 405, body := RespBody.err "Method Not Allowed" },
        cache := cache, templateFetches := 0, dispatchCalls := 0, dispatched := none } := by
  simp [paypalWebhookHandler, h]

/-- Claim C4, witness: the theorem applied to a GET request. -/
theorem C4_method_not_allowed_witness :
    ("GET" : String) ≠ "POST" ∧
    paypalWebhookHandler envOk none { method := "GET", body := ReqBody.obj samplePayload } =
      { resp := { status := 405, body := RespBody.err "Method Not Allowed" },
        cache := none, templateFetches := 0, dispatchCalls := 0, dispatched := none } :=
  ⟨by decide, C4_method_not_allowed envOk none _ (by decide)⟩

/-- Claim C5: a POST request whose decoded payload has an event type
other than `PAYMENT.CAPTURE.COMPLETED` is answered
`200 (message "Ignored non-payment event")` with no template fetch and
no dispatch call. -/
theorem C5_ignored_event (env : Env) (cache : Option String) (req : Req) (p : Payload)
    (hm : req.method = "POST") (hd : decodedPayload env req = some p)
    (he : p.event_type ≠ some "PAYMENT.CAPTURE.COMPLETED") :
    paypalWebhookHandler env cache req =
      { resp := { status := 200, body := RespBody.msg "Ignored non-payment event" },
        cache := cache, templateFetches := 0, dispatchCalls := 0, dispatched := none } := by
  cases req with
  | mk m b =>
    cases b with
    | str s =>
      simp only [decodedPayload] at hd
      simp [paypalWebhookHandler, hm, hd, handleOrder, he]
      exact hm
    | obj q =>
      simp only [decodedPayload, Option.some.injEq] at hd
      subst hd
      simp [paypalWebhookHandler, hm, handleOrder, he]
      exact hm

/-- Claim C5, witness: the theorem applied to an order-approved event. -/
theorem C5_ignored_event_witness :
    decodedPayload envOk { method := "POST", body := ReqBody.obj otherEventPayload }
      = some otherEventPayload ∧
    paypalWebhookHandler envOk none { method := "POST", body := ReqBody.obj otherEventPayload } =
      { resp := { status := 200, body := RespBody.msg "Ignored non-payment event" },
        cache := none, templateFetches := 0, dispatchCalls := 0, dispatched := none } :=
  ⟨rfl, C5_ignored_event envOk none _ otherEventPayload rfl rfl (by decide)⟩

/-- Claim C6: a payment-completed payload with
`resource.payer.email_address` absent is answered
`400 (error "Buyer email not found in event")` and no dispatch call (and
no template fetch) is made. -/
theorem C6_missing_buyer_email (env : Env) (cache : Option String) (req : Req) (p : Payload)
    (hm : req.method = "POST") (hd : decodedPayload env req = some p)
    (he : p.event_type = some "PAYMENT.CAPTURE.COMPLETED")
    (hb : buyerEmailOf p = none) :
    paypalWebhookHandler env cache req =
      { resp := { status := 400, body := RespBody.err "Buyer email not found in event" },
        cache := cache, templateFetches := 0, dispatchCalls := 0, dispatched := none } := by
  cases req with
  | mk m b =>
    cases b with
    | str s =>
      simp only [decodedPayload] at hd
      simp [paypalWebhookHandler, hm, hd, handleOrder, he, hb, truthyStr]
      exact hm
    | obj q =>
      simp only [decodedPayload, Option.some.injEq] at hd
      subst hd
      simp [paypalWebhookHandler, hm, handleOrder, he, hb, truthyStr]
      exact hm

/-- Claim C6, witness: the theorem applied to a payload with no payer. -/
theorem C6_missing_buyer_email_witness :
    decodedPayload envOk { method := "POST", body := ReqBody.obj noPayerPayload }
      = some noPayerPayload ∧
    buyerEmailOf noPayerPayload = none ∧
    paypalWebhookHandler envOk none { method := "POST", body := ReqBody.obj noPayerPayload } =
      { resp := { status := 400, body := RespBody.err "Buyer email not found in event" },
        cache := none, templateFetches := 0, dispatchCalls := 0, dispatched := none } :=
  ⟨rfl, rfl, C6_missing_buyer_email envOk none _ noPayerPayload rfl rfl rfl rfl⟩

/-- Claim C7: a POST request whose string body fails to decode is
answered `400 (error "Invalid JSON body")` — a normal client-input
error, not the `500 (error "Internal Server Error")` catch-all. -/
theorem C7_malformed_payload (env : Env) (cache : Option String) (s : String)
    (hp : env.parseJson s = none) :
    (paypalWebhookHandler env cache { method := "POST", body := ReqBody.str s }).resp
        = { status := 400, body := RespBody.err "Invalid JSON body" } ∧
    (paypalWebhookHandler env cache { method := "POST", body := ReqBody.str s }).resp
        ≠ { status := 500, body := RespBody.err "Internal Server Error" } := by
  have h : paypalWebhookHandler env cache { method := "POST", body := ReqBody.str s } =
      { resp := { status := 400, body := RespBody.err "Invalid JSON body" },
        cache := cache, templateFetches := 0, dispatchCalls := 0, dispatched := none } := by
    simp [paypalWebhookHandler, hp]
  rw [h]
  refine ⟨rfl, fun hcontra => ?_⟩
  have h2 : ({ status := 400, body := RespBody.err "Invalid JSON body" } : Resp)
      = { status := 500, body := RespBody.err "Internal Server Error" } := hcontra
  simp at h2

/-- Claim C7, witness: the theorem applied to a body the decoder rejects. -/
theorem C7_malformed_payload_witness :
    envOk.parseJson "not json \x7b" = none ∧
    (paypalWebhookHandler envOk none
        { method := "POST", body := ReqBody.str "not json \x7b" }).resp
      = { status := 400, body := RespBody.err "Invalid JSON body" } ∧
    (paypalWebhookHandler envOk none
        { method := "POST", body := ReqBody.str "not json \x7b" }).resp
      ≠ { status := 500, body := RespBody.err "Internal Server Error" } :=
  ⟨rfl, (C7_malformed_payload envOk none _ rfl).1, (C7_malformed_payload envOk none _ rfl).2⟩

/-- Claim C8: on a payment-completed payload with a present, non-empty
buyer email and a missing item-name path, the item name defaults to
`"Digital Product"`, validation does not fail, and the email is still
dispatched (one dispatch call, subject built from the default), with a
200 success response when the provider accepts. -/
theorem C8_default_item_name (env : Env) (cache : Option String) (req : Req) (p : Payload)
    (e id tmpl : String)
    (hm : req.method = "POST") (hd : decodedPayload env req = some p)
    (he : p.event_type = some "PAYMENT.CAPTURE.COMPLETED")
    (hb : buyerEmailOf p = some e) (hne : e ≠ "")
    (hi : itemNamePath p = none)
    (ht : (getEmailTemplate env.templateFetch cache).result = Except.ok tmpl)
    (hk : truthyStr env.apiKey = true)
    (hr : env.resendOutcome = ResendOutcome.success id) :
    itemNameOf p = "Digital Product" ∧
    (paypalWebhookHandler env cache req).dispatchCalls = 1 ∧
    (paypalWebhookHandler env cache req).dispatched =
      some { toAddr := e, subject := "Your Digital Product is ready!",
             html := personalize tmpl "Digital Product" e } ∧
    (paypalWebhookHandler env cache req).resp =
      { status := 200, body := RespBody.sent ("Email sent to " ++ e) id } := by
  have hitem : itemNameOf p = "Digital Product" := by
    simp [itemNameOf, hi]
  have hbt : truthyStr (some e) = true := by
    simp [truthyStr, hne]
  have hsub : "Your " ++ itemNameOf p ++ " is ready!" = "Your Digital Product is ready!" := by
    rw [hitem]; rfl
  refine ⟨hitem, ?_, ?_, ?_⟩ <;>
  · cases req with
    | mk m b =>
      cases b with
      | str s =>
        have hm' : m = "POST" := hm
        subst hm'
        simp only [decodedPayload] at hd
        simp [paypalWebhookHandler, hd, handleOrder, he, hb, hbt, hitem, ht, hk, hr, hsub]
      | obj q =>
        have hm' : m = "POST" := hm
        simp only [decodedPayload, Option.some.injEq] at hd
        subst hm'
        subst hd
        simp [paypalWebhookHandler, handleOrder, he, hb, hbt, hitem, ht, hk, hr, hsub]

/-- Claim C8, witness: the theorem applied to the sample payload with
`purchase_units` absent, in the all-success environment. -/
theorem C8_default_item_name_witness :
    decodedPayload envOk { method := "POST", body := ReqBody.obj noItemPayload }
      = some noItemPayload ∧
    itemNamePath noItemPayload = none ∧
    itemNameOf noItemPayload = "Digital Product" ∧
    (paypalWebhookHandler envOk none
        { method := "POST", body := ReqBody.obj noItemPayload }).dispatchCalls = 1 ∧
    (paypalWebhookHandler envOk none
        { method := "POST", body := ReqBody.obj noItemPayload }).resp =
      { status := 200, body := RespBody.sent "Email sent to buyer@x.com" "em_123" } := by
  have h := C8_default_item_name envOk none
    { method := "POST", body := ReqBody.obj noItemPayload }
    noItemPayload "buyer@x.com" "em_123"
    ("Item: \x7b\x7bitemName\x7d\x7d / To: \x7b\x7bbuyerEmail\x7d\x7d")
    rfl rfl rfl rfl (by decide) rfl rfl rfl rfl
  exact ⟨rfl, rfl, h.1, h.2.1, h.2.2.2⟩

/-- Claim C9: whatever status and raw body text the email provider's
non-success response carries, the caller-visible response is the fixed
`500 (error "Failed to send email")` — the provider's body appears
nowhere in it, since the response does not depend on that text. -/
theorem C9_dispatch_rejected (env : Env) (cache : Option String) (req : Req) (p : Payload)
    (st : Nat) (txt : String)
    (hm : req.method = "POST") (hd : decodedPayload env req = some p)
    (he : p.event_type = some "PAYMENT.CAPTURE.COMPLETED")
    (hb : truthyStr (buyerEmailOf p) = true)
    (ht : (getEmailTemplate env.templateFetch cache).result ≠ Except.error ())
    (hk : truthyStr env.apiKey = true)
    (hr : env.resendOutcome = ResendOutcome.httpError st txt) :
    (paypalWebhookHandler env cache req).resp =
      { status := 500, body := RespBody.err "Failed to send email" } := by
  obtain ⟨tmpl, htm⟩ : ∃ tmpl, (getEmailTemplate env.templateFetch cache).result
      = Except.ok tmpl := by
    cases hres : (getEmailTemplate env.templateFetch cache).result with
    | error u => cases u; exact absurd hres ht
    | ok tmpl => exact ⟨tmpl, rfl⟩
  cases req with
  | mk m b =>
    cases b with
    | str s =>
      have hm' : m = "POST" := hm
      subst hm'
      simp only [decodedPayload] at hd
      simp [paypalWebhookHandler, hd, handleOrder, he, hb, htm, hk, hr]
    | obj q =>
      have hm' : m = "POST" := hm
      simp only [decodedPayload, Option.some.injEq] at hd
      subst hm'
      subst hd
      simp [paypalWebhookHandler, handleOrder, he, hb, htm, hk, hr]

/-- Claim C9, witness: the theorem applied to the sample payload in an
environment where the provider answers 422 with a raw body text. -/
theorem C9_dispatch_rejected_witness :
    truthyStr (buyerEmailOf samplePayload) = true ∧
    (getEmailTemplate envResendFail.templateFetch none).result ≠ Except.error () ∧
    envResendFail.resendOutcome = ResendOutcome.httpError 422 "missing domain" ∧
    (paypalWebhookHandler envResendFail none
        { method := "POST", body := ReqBody.obj samplePayload }).resp =
      { status := 500, body := RespBody.err "Failed to send email" } := by
  refine ⟨rfl, by simp [getEmailTemplate, templateTruthy, envResendFail], rfl, ?_⟩
  exact C9_dispatch_rejected envResendFail none _ samplePayload 422 "missing domain" rfl rfl rfl rfl
    (by simp [getEmailTemplate, templateTruthy, envResendFail]) rfl rfl

/-- Claim C10 (corrected): substitution applies the `{{itemName}}`
replacement strictly before the `{{buyerEmail}}` replacement, and for
order values free of the `$`-escape sequences of
`String.prototype.replace` it inserts them verbatim; then, for every
template decomposed at the leftmost `{{itemName}}` occurrence and every
item-name value containing `{{buyerEmail}}`, that marker inside the
inserted item name is itself replaced by the buyer email by the second
stage, while a `{{itemName}}` occurrence inside the buyer-email value
is inserted verbatim and survives in the output.  The unrestricted
claim is false: `$`-containing values are transformed on insertion, as
the counterexample shows. -/
theorem C10_substitution_order :
    (∀ t i b : String,
      personalize t i b
        = String.mk (replaceAll buyerMarker b.data
            (replaceAll itemMarker i.data t.data))) ∧
    (∀ t i b : String, '$' ∉ i.data → '$' ∉ b.data →
      personalize t i b
        = String.mk (replaceAllVerbatim buyerMarker b.data
            (replaceAllVerbatim itemMarker i.data t.data))) ∧
    (∀ (u v i₁ i₂ : List Char) (b : String),
      '$' ∉ (i₁ ++ (buyerMarker ++ i₂)) → '$' ∉ b.data →
      noPrefixMatch itemMarker (itemMarker ++ v) u = true →
      noPrefixMatch buyerMarker
        (buyerMarker ++ (i₂ ++ replaceAllVerbatim itemMarker (i₁ ++ (buyerMarker ++ i₂)) v))
        (u ++ i₁) = true →
      personalize (String.mk (u ++ (itemMarker ++ v)))
          (String.mk (i₁ ++ (buyerMarker ++ i₂))) b
        = String.mk ((u ++ i₁) ++ (b.data
            ++ replaceAllVerbatim buyerMarker b.data
                (i₂ ++ replaceAllVerbatim itemMarker (i₁ ++ (buyerMarker ++ i₂)) v)))) ∧
    (∀ (u v b₁ b₂ : List Char) (i : String),
      '$' ∉ (b₁ ++ (itemMarker ++ b₂)) →
      containsSeq itemMarker (u ++ (buyerMarker ++ v)) = false →
      noPrefixMatch buyerMarker (buyerMarker ++ v) u = true →
      personalize (String.mk (u ++ (buyerMarker ++ v))) i
          (String.mk (b₁ ++ (itemMarker ++ b₂)))
        = String.mk (u ++ ((b₁ ++ (itemMarker ++ b₂))
            ++ replaceAllVerbatim buyerMarker (b₁ ++ (itemMarker ++ b₂)) v))) := by
  refine ⟨fun t i b => rfl, ?_, ?_, ?_⟩
  · intro t i b hi hb
    unfold personalize
    rw [replaceAll_eq_verbatim itemMarker _ _ hi,
      replaceAll_eq_verbatim buyerMarker _ _ hb]
  · intro u v i₁ i₂ b hi hb hT hB
    unfold personalize
    simp only [dataMk]
    rw [replaceAll_eq_verbatim itemMarker _ _ hi]
    rw [replaceAllVerbatim_through itemMarker _ (by decide) u v hT]
    have hshape : u ++ ((i₁ ++ (buyerMarker ++ i₂))
          ++ replaceAllVerbatim itemMarker (i₁ ++ (buyerMarker ++ i₂)) v)
        = (u ++ i₁) ++ (buyerMarker
            ++ (i₂ ++ replaceAllVerbatim itemMarker (i₁ ++ (buyerMarker ++ i₂)) v)) := by
      simp [List.append_assoc]
    rw [hshape]
    rw [replaceAll_eq_verbatim buyerMarker _ _ hb]
    rw [replaceAllVerbatim_through buyerMarker _ (by decide) (u ++ i₁) _ hB]
  · intro u v b₁ b₂ i hbv hT hB
    unfold personalize
    simp only [dataMk]
    rw [replaceAll_id_of_not_contains itemMarker i.data _ hT]
    rw [replaceAll_eq_verbatim buyerMarker _ _ hbv]
    rw [replaceAllVerbatim_through buyerMarker _ (by decide) u v hB]

/-- Claim C10, counterexample to the claim as stated: with the
`$`-containing buyer email `"$&"`, the `{{buyerEmail}}` marker inside
the inserted item name is NOT replaced by the buyer email — ECMA-262
`GetSubstitution` turns `$&` into the matched marker text, so the
marker survives and the buyer-email value appears nowhere; likewise an
itemName of `"$&"` is inserted as the item marker itself rather than
unescaped. -/
theorem C10_dollar_counterexample :
    personalize ("\x7b\x7bitemName\x7d\x7d") ("X\x7b\x7bbuyerEmail\x7d\x7dY") "$&"
      = ("X\x7b\x7bbuyerEmail\x7d\x7dY") ∧
    containsSeq buyerMarker
      (personalize ("\x7b\x7bitemName\x7d\x7d") ("X\x7b\x7bbuyerEmail\x7d\x7dY") "$&").data
      = true ∧
    containsSeq ("$&").data
      (personalize ("\x7b\x7bitemName\x7d\x7d") ("X\x7b\x7bbuyerEmail\x7d\x7dY") "$&").data
      = false ∧
    personalize ("\x7b\x7bitemName\x7d\x7d") "$&" "b" = ("\x7b\x7bitemName\x7d\x7d") := by
  decide

/-- Claim C10, witness: the through-the-marker conjuncts instantiated at
the template `"Hi {{itemName}}!"` with item name `"X{{buyerEmail}}Y"`
and buyer email `"a@b.com"` (rendering `"Hi Xa@b.comY!"`), and at the
template `"To {{buyerEmail}}."` with buyer email `"A{{itemName}}B"`
(rendering `"To A{{itemName}}B."`). -/
theorem C10_substitution_order_witness :
    noPrefixMatch itemMarker (itemMarker ++ ("!").data) ("Hi ").data = true ∧
    personalize (String.mk (("Hi ").data ++ (itemMarker ++ ("!").data)))
        (String.mk (("X").data ++ (buyerMarker ++ ("Y").data))) "a@b.com"
      = String.mk ((("Hi ").data ++ ("X").data) ++ (("a@b.com").data
          ++ replaceAllVerbatim buyerMarker ("a@b.com").data
              (("Y").data ++ replaceAllVerbatim itemMarker
                (("X").data ++ (buyerMarker ++ ("Y").data)) ("!").data))) ∧
    personalize (String.mk (("Hi ").data ++ (itemMarker ++ ("!").data)))
        (String.mk (("X").data ++ (buyerMarker ++ ("Y").data))) "a@b.com"
      = "Hi Xa@b.comY!" ∧
    personalize (String.mk (("To ").data ++ (buyerMarker ++ (".").data))) "Widget"
        (String.mk (("A").data ++ (itemMarker ++ ("B").data)))
      = "To A\x7b\x7bitemName\x7d\x7dB." := by
  refine ⟨by decide, ?_, by decide, ?_⟩
  · exact C10_substitution_order.2.2.1 ("Hi ").data ("!").data ("X").data ("Y").data
      "a@b.com" (by decide) (by decide) (by decide) (by decide)
  · have h := C10_substitution_order.2.2.2 ("To ").data (".").data ("A").data ("B").data
      "Widget" (by decide) (by decide) (by decide)
    rw [h]
    decide
